import Mathlib

/-!
Shallow embedding of the screen-recorder program `capture_screen_avi.py`
(a PyQt5 + OpenCV screen recorder, class `ScreenRecorder`) together with
proofs of the specification's testable properties.

Modelling conventions:
* Pixel buffers are modelled by their geometry (width, height, channel
  count) plus the interpolation tag of the last resize; pixel contents are
  irrelevant to every property below.
* Python floats appearing in the program (`scale` factors 1.0, 0.5, 1/3,
  0.25 and the division `1000 / max(1, fps)`) are modelled as exact
  rationals; for the dimensions and fps ranges the program handles, IEEE
  double arithmetic and exact rational arithmetic agree after `int`
  truncation.
* The fallible external calls (`cv2.VideoWriter` opening, `release`) are
  modelled by an explicit environment: `Env.canOpen` tells whether the
  host can initialise an encoder for a fourcc, and a writer's
  `releaseFaults` flag tells whether its `release()` call raises.
* A raised Python exception is an `Except.error`; `try ... except: pass`
  is the pattern match that maps both outcomes to the same result.
* `RecState.openCount` is a ghost event counter: it is incremented exactly
  where `self.writer = self._init_writer(...)` runs, and nowhere else, so
  "the encoder was opened exactly once" is expressible.  Likewise
  `RecState.closed` records that the widget teardown (`super().closeEvent`)
  has run.
-/

/-- Interpolation policies of `cv2.resize` used by the program. -/
inductive Interp where
  | area
  | smooth
deriving Repr, DecidableEq

/-- Frame: a captured still image of the display (`QScreen.grabWindow`
result, a `QPixmap`); only its geometry matters here. -/
structure Frame where
  width : Nat
  height : Nat
deriving Repr, DecidableEq

/-- Image buffer (a `QImage` or numpy array): geometry, channel count and
the interpolation tag of the last resize applied to it. -/
structure Img where
  width : Nat
  height : Nat
  channels : Nat
  resampledWith : Option Interp
deriving Repr, DecidableEq

/-- Embeds `qimage_from_pixmap`: `pix.toImage().convertToFormat(Format_RGB32)`
keeps the geometry and yields a 32-bit four-channel image. -/
def qimage_from_pixmap (pix : Frame) : Frame := pix

/-- Embeds `qimage_to_numpy`: a Format_RGB32 `QImage` reshaped to an
(H, W, 4) BGRA array. -/
def qimage_to_numpy (img : Frame) : Img :=
  { width := img.width, height := img.height, channels := 4, resampledWith := none }

/-- Embeds `cv2.resize(arr, (new_w, new_h), interpolation=interp)`:
geometry replaced, channels kept, interpolation tag recorded. -/
def cvResize (img : Img) (newW newH : Nat) (interp : Interp) : Img :=
  { width := newW, height := newH, channels := img.channels, resampledWith := some interp }

/-- Embeds `cv2.cvtColor(arr, cv2.COLOR_BGRA2BGR)`: four channels reduced
to three by dropping alpha; geometry unchanged. -/
def cvtColor_BGRA2BGR (img : Img) : Img :=
  { img with channels := 3 }

/-- Python `int()` truncation applied to a nonnegative rational. -/
def pyInt (q : ℚ) : Nat := (Int.floor q).toNat

/-- The scale selector `scale_box` entries 원본, 1/2, 1/3, 1/4. -/
inductive ScaleSel where
  | orig
  | half
  | third
  | quarter
deriving Repr, DecidableEq

/-- Embeds `_scale_factor`: the dictionary mapping the combo-box text to
the float scale factor 1.0, 0.5, 1/3, 0.25. -/
def scale_factor : ScaleSel → ℚ
  | .orig => 1
  | .half => 1 / 2
  | .third => 1 / 3
  | .quarter => 1 / 4

/-- Denominator view of the same factors (each is 1/d). -/
def scaleDen : ScaleSel → Nat
  | .orig => 1
  | .half => 2
  | .third => 3
  | .quarter => 4

/-- Embeds lines 194-202 of `_on_tick`: the downscale option followed by
the BGRA→BGR conversion.  Input is the BGRA array of the captured frame. -/
def convertFrame (sel : ScaleSel) (arr : Img) : Img :=
  let scale := scale_factor sel
  let arr :=
    if scale ≠ 1 then
      let new_w := pyInt ((arr.width : ℚ) * scale)
      let new_h := pyInt ((arr.height : ℚ) * scale)
      cvResize arr new_w new_h Interp.area
    else arr
  cvtColor_BGRA2BGR arr

/-- Post-conversion geometry of a captured frame: the (width, height)
pair of the converter's output for that frame. -/
def convGeom (sel : ScaleSel) (pix : Frame) : Nat × Nat :=
  ((convertFrame sel (qimage_to_numpy (qimage_from_pixmap pix))).width,
   (convertFrame sel (qimage_to_numpy (qimage_from_pixmap pix))).height)

/-- Last path component: `pathlib` name of the final component. -/
def pyPathName (p : String) : String :=
  match (p.toList.reverse.takeWhile (fun c => c ≠ '/')).reverse with
  | cs => String.mk cs

/-- Index of the last occurrence of `c` in `cs`, if any. -/
def lastDotIdx : List Char → Option Nat
  | [] => none
  | c :: cs =>
    match lastDotIdx cs with
    | some i => some (i + 1)
    | none => if c = '.' then some 0 else none

/-- Embeds `pathlib.PurePath.suffix`: the final component's extension,
empty unless the last dot is at an index i with 0 < i < len - 1. -/
def pySuffix (p : String) : String :=
  let name := (pyPathName p).toList
  match lastDotIdx name with
  | some i => if 0 < i ∧ i < name.length - 1 then String.mk (name.drop i) else ""
  | none => ""

/-- Embeds Python `str.lower()`, character by character; the suffix
strings the program compares are ASCII, where this matches Python. -/
def pyLower (s : String) : String := String.mk (s.toList.map Char.toLower)

/-- Embeds the fourcc choice of `_init_writer`:
`"mp4v" if out_path.suffix.lower() == ".mp4" else "XVID"`. -/
def fourccFor (out_path : String) : String :=
  if pyLower (pySuffix out_path) = ".mp4" then "mp4v" else "XVID"

/-- Video writer (`cv2.VideoWriter`): creation parameters plus the list of
geometries of the frames written so far, a released flag, and the
environment fact of whether its `release()` call raises. -/
structure VideoWriter where
  path : String
  fourcc : String
  fps : Nat
  frameW : Nat
  frameH : Nat
  frames : List (Nat × Nat)
  released : Bool
  releaseFaults : Bool
deriving Repr, DecidableEq

/-- Host environment: whether `cv2.VideoWriter(...)` ends up opened for a
given fourcc, and whether `release()` raises. -/
structure Env where
  canOpen : String → Bool
  releaseFaults : Bool

/-- Embeds `_init_writer`: builds the writer from the fourcc selected by
the output path's extension; raises RuntimeError when `isOpened()` is
false. -/
def init_writer (env : Env) (frame_w frame_h : Nat) (fps : Nat) (out_path : String) :
    Except String VideoWriter :=
  let fourcc := fourccFor out_path
  if env.canOpen fourcc then
    Except.ok
      { path := out_path, fourcc := fourcc, fps := fps, frameW := frame_w,
        frameH := frame_h, frames := [], released := false,
        releaseFaults := env.releaseFaults }
  else
    Except.error "RuntimeError: VideoWriter를 열 수 없습니다. 다른 코덱/확장자를 시도하세요."

/-- Embeds `writer.write(frame)`: appends one frame's geometry. -/
def writerWrite (w : VideoWriter) (g : Nat × Nat) : VideoWriter :=
  { w with frames := w.frames ++ [g] }

/-- Embeds `writer.release()`: raises when the environment says so,
otherwise marks the writer released. -/
def cvRelease (w : VideoWriter) : Except String VideoWriter :=
  if w.releaseFaults then Except.error "release failed"
  else Except.ok { w with released := true }

/-- Session state of `ScreenRecorder`: the fields set in `__init__` that
the capture/record pipeline reads or writes. -/
structure RecState where
  recording : Bool
  timerInterval : Option Nat
  btnStartEnabled : Bool
  btnStopEnabled : Bool
  fpsBox : Nat
  scaleSel : ScaleSel
  keepAspect : Bool
  hasScreen : Bool
  lastFrameTime : ℚ
  writer : Option VideoWriter
  targetPath : Option String
  targetSize : Option (Nat × Nat)
  openCount : Nat
  closed : Bool
deriving Repr, DecidableEq

/-- The state built by `__init__`: timer stopped, not recording, no
writer, no target path or size; fps box, scale box and aspect checkbox at
the given values; a primary screen is present in the documented flow. -/
def initState (fps : Nat) (sel : ScaleSel) (keep : Bool) : RecState :=
  { recording := false, timerInterval := none, btnStartEnabled := true,
    btnStopEnabled := false, fpsBox := fps, scaleSel := sel,
    keepAspect := keep, hasScreen := true, lastFrameTime := 0,
    writer := none, targetPath := none, targetSize := none,
    openCount := 0, closed := false }

/-- Embeds `_choose_target`: the dialog's returned string, mapped to a
`Path` when non-empty and to `None` when empty (user cancelled). -/
def choose_target (dialogResult : String) : Option String :=
  if dialogResult = "" then none else some dialogResult

/-- Embeds `_start_recording`, with the file dialog's result passed in:
returns at once while recording; stores the chosen path and aborts when it
is `None`; otherwise arms the timer at `int(1000 / max(1, fps))` ms,
toggles the buttons, sets the recording flag and resets the frame clock. -/
def start_recording (dialogResult : String) (s : RecState) : RecState :=
  if s.recording then s
  else
    let tp := choose_target dialogResult
    let s := { s with targetPath := tp }
    match tp with
    | none => s
    | some _ =>
      let fps := s.fpsBox
      let interval_ms := pyInt (((1000 : Nat) : ℚ) / ((max 1 fps : Nat) : ℚ))
      { s with timerInterval := some interval_ms, btnStartEnabled := false,
               btnStopEnabled := true, recording := true, lastFrameTime := 0 }

/-- Embeds `_release_writer`: when a writer is present, call `release()`
inside `try ... except Exception: pass`, then set `self.writer = None`;
otherwise do nothing. -/
def release_writer (s : RecState) : RecState :=
  match s.writer with
  | none => s
  | some w =>
    match cvRelease w with
    | Except.ok _ => { s with writer := none }
    | Except.error _ => { s with writer := none }

/-- Embeds `_stop_recording`: returns at once while not recording;
otherwise stops the timer, toggles the buttons, clears the recording flag,
releases the writer and clears the target path and size. -/
def stop_recording (s : RecState) : RecState :=
  if s.recording = false then s
  else
    let s := { s with timerInterval := none, btnStartEnabled := true,
                      btnStopEnabled := false, recording := false }
    let s := release_writer s
    { s with targetPath := none, targetSize := none }

/-- Embeds `closeEvent`: run `_stop_recording`, then the widget teardown
`super().closeEvent(e)` (recorded by the ghost `closed` flag). -/
def close_event (s : RecState) : RecState :=
  let s := stop_recording s
  { s with closed := true }

/-- Embeds `_on_tick` with the captured frame passed in: bail out without
a screen; update the preview (no session-state effect); bail out when not
recording; convert the frame; lazily initialise the writer on the first
recorded frame, recording the post-scale geometry as the session's target
size; resize a mismatched frame to the target size; write the frame. -/
def on_tick (env : Env) (pix : Frame) (s : RecState) : Except String RecState :=
  if s.hasScreen = false then Except.ok s
  else if s.recording = false then Except.ok s
  else
    let img := qimage_from_pixmap pix
    let arr := qimage_to_numpy img
    let frame_bgr := convertFrame s.scaleSel arr
    match s.writer with
    | none =>
      match s.targetPath with
      | none => Except.error "AttributeError: NoneType object has no attribute suffix"
      | some p =>
        match init_writer env frame_bgr.width frame_bgr.height s.fpsBox p with
        | Except.error e => Except.error e
        | Except.ok w =>
          let s :=
            { s with writer := some w, openCount := s.openCount + 1,
                     targetSize := some (frame_bgr.width, frame_bgr.height) }
          let frame_bgr :=
            if ((frame_bgr.width, frame_bgr.height) : Nat × Nat) ≠
                (frame_bgr.width, frame_bgr.height) then
              cvResize frame_bgr frame_bgr.width frame_bgr.height Interp.area
            else frame_bgr
          Except.ok { s with writer := some (writerWrite w (frame_bgr.width, frame_bgr.height)) }
    | some w =>
      match s.targetSize with
      | none => Except.error "cv2.error: resize with dsize None"
      | some ts =>
        let frame_bgr :=
          if ((frame_bgr.width, frame_bgr.height) : Nat × Nat) ≠ ts then
            cvResize frame_bgr ts.1 ts.2 Interp.area
          else frame_bgr
        Except.ok { s with writer := some (writerWrite w (frame_bgr.width, frame_bgr.height)) }

/-- Runs `_on_tick` once per frame of the list, stopping at the first
raised exception. -/
def runFrames (env : Env) : List Frame → RecState → Except String RecState
  | [], s => Except.ok s
  | f :: fs, s =>
    match on_tick env f s with
    | Except.error e => Except.error e
    | Except.ok s1 => runFrames env fs s1

/-!
Kernel-computable evaluation forms.  `ℚ` arithmetic does not reduce inside
the kernel (its normalisation runs `Nat.gcd`, a well-founded recursion),
so concrete executions of the model go through the following `…E`
functions, each proved equal to the corresponding embedded function; the
scale arithmetic becomes plain truncating `Nat` division.
-/

/-- Evaluation form of `convertFrame`: the rational floor computed as
truncating natural division by the scale denominator. -/
def convertFrameE (sel : ScaleSel) (arr : Img) : Img :=
  { width := arr.width / scaleDen sel, height := arr.height / scaleDen sel,
    channels := 3,
    resampledWith :=
      if sel = ScaleSel.orig then arr.resampledWith else some Interp.area }

/-- Evaluation form of `start_recording`: the timer interval computed as
truncating natural division. -/
def start_recordingE (dialogResult : String) (s : RecState) : RecState :=
  if s.recording then s
  else
    let tp := choose_target dialogResult
    let s := { s with targetPath := tp }
    match tp with
    | none => s
    | some _ =>
      let interval_ms := 1000 / max 1 s.fpsBox
      { s with timerInterval := some interval_ms, btnStartEnabled := false,
               btnStopEnabled := true, recording := true, lastFrameTime := 0 }

/-- Evaluation form of `on_tick`, using `convertFrameE`. -/
def on_tickE (env : Env) (pix : Frame) (s : RecState) : Except String RecState :=
  if s.hasScreen = false then Except.ok s
  else if s.recording = false then Except.ok s
  else
    let img := qimage_from_pixmap pix
    let arr := qimage_to_numpy img
    let frame_bgr := convertFrameE s.scaleSel arr
    match s.writer with
    | none =>
      match s.targetPath with
      | none => Except.error "AttributeError: NoneType object has no attribute suffix"
      | some p =>
        match init_writer env frame_bgr.width frame_bgr.height s.fpsBox p with
        | Except.error e => Except.error e
        | Except.ok w =>
          let s :=
            { s with writer := some w, openCount := s.openCount + 1,
                     targetSize := some (frame_bgr.width, frame_bgr.height) }
          let frame_bgr :=
            if ((frame_bgr.width, frame_bgr.height) : Nat × Nat) ≠
                (frame_bgr.width, frame_bgr.height) then
              cvResize frame_bgr frame_bgr.width frame_bgr.height Interp.area
            else frame_bgr
          Except.ok { s with writer := some (writerWrite w (frame_bgr.width, frame_bgr.height)) }
    | some w =>
      match s.targetSize with
      | none => Except.error "cv2.error: resize with dsize None"
      | some ts =>
        let frame_bgr :=
          if ((frame_bgr.width, frame_bgr.height) : Nat × Nat) ≠ ts then
            cvResize frame_bgr ts.1 ts.2 Interp.area
          else frame_bgr
        Except.ok { s with writer := some (writerWrite w (frame_bgr.width, frame_bgr.height)) }

/-- Evaluation form of `runFrames`, using `on_tickE`. -/
def runFramesE (env : Env) : List Frame → RecState → Except String RecState
  | [], s => Except.ok s
  | f :: fs, s =>
    match on_tickE env f s with
    | Except.error e => Except.error e
    | Except.ok s1 => runFramesE env fs s1

/-!
Concrete fixtures used by the witness theorems.
-/

/-- Environment in which every codec opens and `release()` never raises. -/
def envAll : Env := ⟨fun _ => true, false⟩

/-- Environment in which no codec opens. -/
def envNone : Env := ⟨fun _ => false, false⟩

/-- A 1920×1080 captured frame. -/
def frameFHD : Frame := ⟨1920, 1080⟩

/-- The state right after a successful start at fps 20, scale 1/2, target
`out.mp4` (equal to `start_recording "out.mp4" (initState 20 .half true)`,
see `start_recording_out_mp4`). -/
def sRec20 : RecState :=
  { recording := true, timerInterval := some 50, btnStartEnabled := false,
    btnStopEnabled := true, fpsBox := 20, scaleSel := ScaleSel.half,
    keepAspect := true, hasScreen := true, lastFrameTime := 0,
    writer := none, targetPath := some "out.mp4", targetSize := none,
    openCount := 0, closed := false }

/-- The state after feeding 40 synthetic 1920×1080 frames to `sRec20`. -/
def sFin40 : RecState :=
  { recording := true, timerInterval := some 50, btnStartEnabled := false,
    btnStopEnabled := true, fpsBox := 20, scaleSel := ScaleSel.half,
    keepAspect := true, hasScreen := true, lastFrameTime := 0,
    writer := some
      { path := "out.mp4", fourcc := "mp4v", fps := 20, frameW := 960,
        frameH := 540, frames := List.replicate 40 (960, 540),
        released := false, releaseFaults := false },
    targetPath := some "out.mp4", targetSize := some (960, 540),
    openCount := 1, closed := false }

/-- The state after feeding `framesMix` to `sRec20`. -/
def sMixFin : RecState :=
  { recording := true, timerInterval := some 50, btnStartEnabled := false,
    btnStopEnabled := true, fpsBox := 20, scaleSel := ScaleSel.half,
    keepAspect := true, hasScreen := true, lastFrameTime := 0,
    writer := some
      { path := "out.mp4", fourcc := "mp4v", fps := 20, frameW := 960,
        frameH := 540, frames := List.replicate 3 (960, 540),
        released := false, releaseFaults := false },
    targetPath := some "out.mp4", targetSize := some (960, 540),
    openCount := 1, closed := false }

/-- A writer whose underlying `release()` call raises. -/
def wFaulty : VideoWriter :=
  { path := "out.avi", fourcc := "XVID", fps := 20, frameW := 1920,
    frameH := 1080, frames := [(1920, 1080)], released := false,
    releaseFaults := true }

/-- A state in the middle of a recording session, with a writer whose
`release()` raises, used to witness error suppression. -/
def sRecFaulty : RecState :=
  { recording := true, timerInterval := some 50, btnStartEnabled := false,
    btnStopEnabled := true, fpsBox := 20, scaleSel := ScaleSel.orig,
    keepAspect := true, hasScreen := true, lastFrameTime := 0,
    writer := some wFaulty,
    targetPath := some "out.avi", targetSize := some (1920, 1080),
    openCount := 1, closed := false }

instance exceptDecEq {ε α : Type} [DecidableEq ε] [DecidableEq α] :
    DecidableEq (Except ε α) := fun a b =>
  match a, b with
  | Except.error e, Except.error f =>
    if h : e = f then isTrue (by rw [h]) else isFalse (by simp [h])
  | Except.ok x, Except.ok y =>
    if h : x = y then isTrue (by rw [h]) else isFalse (by simp [h])
  | Except.error _, Except.ok _ => isFalse (by simp)
  | Except.ok _, Except.error _ => isFalse (by simp)

/-!
Helper lemmas: the rational truncations equal natural division, and the
evaluation forms equal the embedded functions.
-/

/-- Truncating a nonnegative rational quotient of naturals is natural
division. -/
theorem pyInt_natCast_div (n d : Nat) : pyInt ((n : ℚ) / (d : ℚ)) = n / d := by
  unfold pyInt
  rw [Rat.floor_natCast_div_natCast, ← Int.natCast_div]
  exact Int.toNat_natCast _

/-- Truncating a natural number cast to the rationals is the identity. -/
theorem pyInt_natCast (n : Nat) : pyInt ((n : Nat) : ℚ) = n := by
  unfold pyInt
  rw [Int.floor_natCast]
  exact Int.toNat_natCast n

/-- Applying a supported scale factor and truncating is division by the
scale denominator. -/
theorem pyInt_mul_scale (n : Nat) (sel : ScaleSel) :
    pyInt ((n : ℚ) * scale_factor sel) = n / scaleDen sel := by
  cases sel
  case orig =>
    have h : (n : ℚ) * scale_factor ScaleSel.orig = ((n : Nat) : ℚ) := by
      simp [scale_factor]
    rw [h, pyInt_natCast]
    exact (Nat.div_one n).symm
  case half =>
    have h : (n : ℚ) * scale_factor ScaleSel.half = ((n : Nat) : ℚ) / ((2 : Nat) : ℚ) := by
      simp [scale_factor]
      ring
    rw [h, pyInt_natCast_div]
    rfl
  case third =>
    have h : (n : ℚ) * scale_factor ScaleSel.third = ((n : Nat) : ℚ) / ((3 : Nat) : ℚ) := by
      simp [scale_factor]
      ring
    rw [h, pyInt_natCast_div]
    rfl
  case quarter =>
    have h : (n : ℚ) * scale_factor ScaleSel.quarter = ((n : Nat) : ℚ) / ((4 : Nat) : ℚ) := by
      simp [scale_factor]
      ring
    rw [h, pyInt_natCast_div]
    rfl

/-- The converter agrees with its evaluation form. -/
theorem convertFrame_eq (sel : ScaleSel) (arr : Img) :
    convertFrame sel arr = convertFrameE sel arr := by
  have hw := pyInt_mul_scale arr.width sel
  have hh := pyInt_mul_scale arr.height sel
  cases sel <;>
    simp_all [convertFrame, convertFrameE, scale_factor, scaleDen, cvResize,
      cvtColor_BGRA2BGR]

/-- The start transition agrees with its evaluation form. -/
theorem start_recording_eq (d : String) (s : RecState) :
    start_recording d s = start_recordingE d s := by
  simp only [start_recording, start_recordingE, pyInt_natCast_div]

/-- The tick handler agrees with its evaluation form. -/
theorem on_tick_eq (env : Env) (pix : Frame) (s : RecState) :
    on_tick env pix s = on_tickE env pix s := by
  simp only [on_tick, on_tickE, convertFrame_eq]

/-- Running a frame list agrees with its evaluation form. -/
theorem runFrames_eq (env : Env) (fs : List Frame) :
    ∀ s, runFrames env fs s = runFramesE env fs s := by
  induction fs with
  | nil => intro s; rfl
  | cons f fs ih =>
    intro s
    simp only [runFrames, runFramesE, on_tick_eq]
    cases on_tickE env f s with
    | error e => rfl
    | ok s1 => exact ih s1

/-!
Structural lemmas about one tick.
-/

/-- A tick on a state whose writer is already open appends exactly one
frame, of exactly the target geometry, and changes nothing else. -/
theorem on_tick_open (env : Env) (pix : Frame) (s : RecState) (w : VideoWriter)
    (ts : Nat × Nat) (hrec : s.recording = true) (hscr : s.hasScreen = true)
    (hw : s.writer = some w) (hts : s.targetSize = some ts) :
    on_tick env pix s = Except.ok { s with writer := some (writerWrite w ts) } := by
  unfold on_tick
  rw [hscr, hrec, hw, hts]
  simp only [Bool.true_eq_false, if_false]
  split
  · rfl
  · next h =>
    have h2 : ((convertFrame s.scaleSel (qimage_to_numpy (qimage_from_pixmap pix))).width,
        (convertFrame s.scaleSel (qimage_to_numpy (qimage_from_pixmap pix))).height) = ts := by
      by_contra hne
      exact h hne
    rw [h2]

/-- Inversion of a successful tick on a state with no writer yet: the
target path was present, the encoder opened, and the new state holds the
freshly opened writer with one written frame of the post-conversion
geometry, that geometry as target size, and the open counter bumped. -/
theorem on_tick_first_inv (env : Env) (pix : Frame) (s s₁ : RecState)
    (hrec : s.recording = true) (hscr : s.hasScreen = true) (hw : s.writer = none)
    (h : on_tick env pix s = Except.ok s₁) :
    ∃ p, s.targetPath = some p ∧ env.canOpen (fourccFor p) = true ∧
      s₁ = { s with
        writer := some
          { path := p, fourcc := fourccFor p, fps := s.fpsBox,
            frameW := (convGeom s.scaleSel pix).1,
            frameH := (convGeom s.scaleSel pix).2,
            frames := [convGeom s.scaleSel pix],
            released := false, releaseFaults := env.releaseFaults },
        openCount := s.openCount + 1,
        targetSize := some (convGeom s.scaleSel pix) } := by
  unfold on_tick at h
  rw [hscr, hrec, hw] at h
  simp only [Bool.true_eq_false, if_false] at h
  cases hp : s.targetPath with
  | none => rw [hp] at h; exact absurd h (by simp)
  | some p =>
    rw [hp] at h
    unfold init_writer at h
    cases hco : env.canOpen (fourccFor p) with
    | false => simp [hco] at h
    | true =>
      simp only [hco, if_true, ne_eq, not_true_eq_false, if_false, ite_false,
        ite_self] at h
      injection h with h
      subst h
      refine ⟨p, rfl, hco, ?_⟩
      simp [writerWrite, convGeom]
      exact ⟨hrec, hscr⟩

/-- While the writer is open and the session records with a screen,
running any frame list preserves the writer identity data (geometry,
fps), appends exactly one frame per tick, never re-opens, and every
appended frame has the target geometry. -/
theorem runFrames_open_inv (env : Env) (fs : List Frame) :
    ∀ (s s' : RecState) (w : VideoWriter),
      s.recording = true → s.hasScreen = true →
      s.writer = some w → s.targetSize = some (w.frameW, w.frameH) →
      runFrames env fs s = Except.ok s' →
      ∃ w', s'.writer = some w' ∧
        w'.frameW = w.frameW ∧ w'.frameH = w.frameH ∧ w'.fps = w.fps ∧
        w'.frames.length = w.frames.length + fs.length ∧
        s'.openCount = s.openCount ∧
        s'.targetSize = s.targetSize ∧
        ∀ d ∈ w'.frames, d ∈ w.frames ∨ d = (w.frameW, w.frameH) := by
  induction fs with
  | nil =>
    intro s s' w hrec hscr hw hts hrun
    unfold runFrames at hrun
    injection hrun with hrun
    subst hrun
    exact ⟨w, hw, rfl, rfl, rfl, rfl, rfl, rfl, fun d hd => Or.inl hd⟩
  | cons f fs ih =>
    intro s s' w hrec hscr hw hts hrun
    unfold runFrames at hrun
    rw [on_tick_open env f s w (w.frameW, w.frameH) hrec hscr hw hts] at hrun
    obtain ⟨w', hw', h1, h2, h3, h4, h5, h7, h6⟩ :=
      ih { s with writer := some (writerWrite w (w.frameW, w.frameH)) } s'
        (writerWrite w (w.frameW, w.frameH)) (by simpa using hrec) (by simpa using hscr)
        rfl (by simpa [writerWrite] using hts) hrun
    refine ⟨w', hw', ?_, ?_, ?_, ?_, ?_, ?_, ?_⟩
    · simpa [writerWrite] using h1
    · simpa [writerWrite] using h2
    · simpa [writerWrite] using h3
    · simp only [writerWrite] at h4
      simp at h4
      simp [h4]
      omega
    · simpa using h5
    · simpa using h7
    · intro d hd
      rcases h6 d hd with hmem | heq
      · simp only [writerWrite, List.mem_append, List.mem_singleton] at hmem
        rcases hmem with hm | hm
        · exact Or.inl hm
        · exact Or.inr hm
      · simp only [writerWrite] at heq
        exact Or.inr heq

/-- C10: invoking start while the session is already recording returns
immediately and leaves every session field unchanged. -/
theorem start_reentrancy_guard (d : String) (s : RecState)
    (h : s.recording = true) : start_recording d s = s := by
  simp [start_recording, h]

/-- Witness for C10 at a concrete recording state. -/
theorem start_reentrancy_guard_witness :
    sRecFaulty.recording = true ∧ start_recording "other.avi" sRecFaulty = sRecFaulty :=
  ⟨rfl, start_reentrancy_guard "other.avi" sRecFaulty rfl⟩

/-- C4: invoking start in Idle (not recording, no stored path) with an
empty or cancelled output-path selection aborts the transition and leaves
the state unchanged. -/
theorem start_guard_idle (s : RecState) (h1 : s.recording = false)
    (h2 : s.targetPath = none) : start_recording "" s = s := by
  unfold start_recording
  rw [h1]
  simp only [Bool.false_eq_true, if_false, choose_target, if_pos rfl]
  cases s
  simp_all

/-- Witness for C4 at the freshly initialised state. -/
theorem start_guard_idle_witness :
    (initState 20 ScaleSel.half true).recording = false ∧
    (initState 20 ScaleSel.half true).targetPath = none ∧
    start_recording "" (initState 20 ScaleSel.half true) = initState 20 ScaleSel.half true :=
  ⟨rfl, rfl, start_guard_idle (initState 20 ScaleSel.half true) rfl rfl⟩

/-- Full effect of stopping from a recording state. -/
theorem stop_recording_spec (s : RecState) (h : s.recording = true) :
    stop_recording s =
      { s with timerInterval := none, btnStartEnabled := true,
               btnStopEnabled := false, recording := false, writer := none,
               targetPath := none, targetSize := none } := by
  unfold stop_recording release_writer
  rw [h]
  simp only [Bool.true_eq_false, if_false]
  cases hw : s.writer with
  | none => simp [hw]
  | some w =>
    simp only [hw]
    unfold cvRelease
    cases hf : w.releaseFaults <;> simp

/-- C5: an application close while recording runs the full stop
transition before teardown: timer disarmed, writer released and cleared,
path and geometry cleared, state back to Idle, and only then the widget
teardown flag set. -/
theorem stop_on_close (s : RecState) (h : s.recording = true) :
    close_event s = { stop_recording s with closed := true } ∧
    (close_event s).recording = false ∧
    (close_event s).timerInterval = none ∧
    (close_event s).writer = none ∧
    (close_event s).targetPath = none ∧
    (close_event s).targetSize = none := by
  have hc : close_event s = { stop_recording s with closed := true } := rfl
  rw [hc, stop_recording_spec s h]
  exact ⟨rfl, rfl, rfl, rfl, rfl, rfl⟩

/-- Witness for C5 at a concrete recording state with a live writer. -/
theorem stop_on_close_witness :
    sRecFaulty.recording = true ∧
    close_event sRecFaulty = { stop_recording sRecFaulty with closed := true } ∧
    (close_event sRecFaulty).recording = false ∧
    (close_event sRecFaulty).timerInterval = none ∧
    (close_event sRecFaulty).writer = none ∧
    (close_event sRecFaulty).targetPath = none ∧
    (close_event sRecFaulty).targetSize = none :=
  ⟨rfl, stop_on_close sRecFaulty rfl⟩

/-- C6: `_release_writer` is an idempotent no-op on a closed or
never-opened handle, and swallows any error the underlying `release()`
raises (even a faulting writer is cleared without propagating). -/
theorem release_writer_safe (s : RecState) :
    (s.writer = none → release_writer s = s) ∧
    (∀ w, s.writer = some w → release_writer s = { s with writer := none }) ∧
    release_writer (release_writer s) = release_writer s := by
  have hnone : ∀ t : RecState, t.writer = none → release_writer t = t := by
    intro t h
    unfold release_writer
    rw [h]
  have hsome : ∀ (t : RecState) w, t.writer = some w →
      release_writer t = { t with writer := none } := by
    intro t w h
    unfold release_writer
    rw [h]
    unfold cvRelease
    cases hf : w.releaseFaults <;> simp [hf]
  refine ⟨hnone s, fun w h => hsome s w h, ?_⟩
  cases hw : s.writer with
  | none => rw [hnone s hw, hnone s hw]
  | some w =>
    rw [hsome s w hw]
    exact hnone _ rfl

/-- Witness for C6: a faulting writer is cleared without an exception,
and a second release is a no-op. -/
theorem release_writer_safe_witness :
    wFaulty.releaseFaults = true ∧
    sRecFaulty.writer = some wFaulty ∧
    release_writer sRecFaulty = { sRecFaulty with writer := none } ∧
    release_writer (release_writer sRecFaulty) = release_writer sRecFaulty :=
  ⟨rfl, rfl, (release_writer_safe sRecFaulty).2.1 wFaulty rfl,
    (release_writer_safe sRecFaulty).2.2⟩

/-- C7: when the underlying encoder cannot be initialised, the first
recorded tick raises the RuntimeError out of `_init_writer` to its caller
instead of continuing with an unopened writer. -/
theorem cannot_open_raises (env : Env) (pix : Frame) (s : RecState) (p : String)
    (hrec : s.recording = true) (hscr : s.hasScreen = true) (hw : s.writer = none)
    (hp : s.targetPath = some p) (hco : env.canOpen (fourccFor p) = false) :
    on_tick env pix s =
      Except.error "RuntimeError: VideoWriter를 열 수 없습니다. 다른 코덱/확장자를 시도하세요." := by
  unfold on_tick
  rw [hscr, hrec, hw, hp]
  simp only [Bool.true_eq_false, if_false]
  unfold init_writer
  simp [hco]

/-- Witness for C7: an environment with no usable codec makes the tick
raise. -/
theorem cannot_open_raises_witness :
    sRec20.recording = true ∧ sRec20.writer = none ∧
    sRec20.targetPath = some "out.mp4" ∧
    envNone.canOpen (fourccFor "out.mp4") = false ∧
    on_tick envNone frameFHD sRec20 =
      Except.error "RuntimeError: VideoWriter를 열 수 없습니다. 다른 코덱/확장자를 시도하세요." :=
  ⟨rfl, rfl, rfl, rfl,
    cannot_open_raises envNone frameFHD sRec20 "out.mp4" rfl rfl rfl rfl rfl⟩

/-- C8: the fourcc is selected from the output path's extension: `.mp4`
(case-insensitively) maps to `mp4v`, `.avi` maps to `XVID`, the two are
distinct, and every other extension falls through to the default `XVID`
branch. -/
theorem codec_from_extension :
    (∀ p, pyLower (pySuffix p) = ".mp4" → fourccFor p = "mp4v") ∧
    (∀ p, pyLower (pySuffix p) = ".avi" → fourccFor p = "XVID") ∧
    ("mp4v" : String) ≠ "XVID" ∧
    (∀ p, pyLower (pySuffix p) ≠ ".mp4" → fourccFor p = "XVID") := by
  refine ⟨?_, ?_, by decide, ?_⟩
  · intro p h
    unfold fourccFor
    rw [h]
    simp
  · intro p h
    unfold fourccFor
    rw [h]
    simp
  · intro p h
    unfold fourccFor
    rw [if_neg h]

/-- Witness for C8 on concrete paths, exercising both supported
extensions, case-insensitivity, and the fall-through default. -/
theorem codec_from_extension_witness :
    fourccFor "out.mp4" = "mp4v" ∧ fourccFor "shot.MP4" = "mp4v" ∧
    fourccFor "capture.avi" = "XVID" ∧ fourccFor "clip.mkv" = "XVID" :=
  ⟨codec_from_extension.1 "out.mp4" (by decide),
   codec_from_extension.1 "shot.MP4" (by decide),
   codec_from_extension.2.1 "capture.avi" (by decide),
   codec_from_extension.2.2.2 "clip.mkv" (by decide)⟩

/-- C9: a successful start arms the timer at `1000 / max 1 fps`
milliseconds (integer truncation of `1000 / max(1, fps)`). -/
theorem timer_interval_arming (d : String) (s : RecState)
    (hd : d ≠ "") (hrec : s.recording = false) :
    (start_recording d s).recording = true ∧
    (start_recording d s).timerInterval = some (1000 / max 1 s.fpsBox) := by
  rw [start_recording_eq]
  unfold start_recordingE
  rw [hrec]
  simp [choose_target, hd]

/-- Witness for C9: fps 20 arms a 50 ms timer. -/
theorem timer_interval_arming_witness :
    ("out.mp4" : String) ≠ "" ∧
    (initState 20 ScaleSel.half true).recording = false ∧
    (start_recording "out.mp4" (initState 20 ScaleSel.half true)).recording = true ∧
    (start_recording "out.mp4" (initState 20 ScaleSel.half true)).timerInterval =
      some (1000 / max 1 (initState 20 ScaleSel.half true).fpsBox) :=
  ⟨by decide, rfl,
   timer_interval_arming "out.mp4" (initState 20 ScaleSel.half true) (by decide) rfl⟩

/-- C2: for every supported scale factor and input frame, the converted
buffer's dimensions are the truncated products width·s and height·s
(equal to truncating division by the scale denominator), the four-channel
input is reduced to exactly three channels, and a non-unit scale goes
through the area-averaging resampler. -/
theorem converter_output (sel : ScaleSel) (f : Frame) :
    (qimage_to_numpy (qimage_from_pixmap f)).channels = 4 ∧
    (convertFrame sel (qimage_to_numpy (qimage_from_pixmap f))).width =
      pyInt ((f.width : ℚ) * scale_factor sel) ∧
    (convertFrame sel (qimage_to_numpy (qimage_from_pixmap f))).height =
      pyInt ((f.height : ℚ) * scale_factor sel) ∧
    (convertFrame sel (qimage_to_numpy (qimage_from_pixmap f))).width =
      f.width / scaleDen sel ∧
    (convertFrame sel (qimage_to_numpy (qimage_from_pixmap f))).height =
      f.height / scaleDen sel ∧
    (convertFrame sel (qimage_to_numpy (qimage_from_pixmap f))).channels = 3 ∧
    (scale_factor sel ≠ 1 →
      (convertFrame sel (qimage_to_numpy (qimage_from_pixmap f))).resampledWith =
        some Interp.area) := by
  rw [convertFrame_eq]
  refine ⟨rfl, ?_, ?_, rfl, rfl, rfl, ?_⟩
  · rw [pyInt_mul_scale]
    rfl
  · rw [pyInt_mul_scale]
    rfl
  · intro hs
    unfold convertFrameE
    have : sel ≠ ScaleSel.orig := by
      intro he
      rw [he] at hs
      exact hs rfl
    simp [this]

/-- Witness for C2: a 1920×1080 frame at scale 1/2 converts to a
960×540 three-channel buffer resampled with the area filter. -/
theorem converter_output_witness :
    (convertFrame ScaleSel.half (qimage_to_numpy (qimage_from_pixmap frameFHD))).width = 960 ∧
    (convertFrame ScaleSel.half (qimage_to_numpy (qimage_from_pixmap frameFHD))).height = 540 ∧
    (convertFrame ScaleSel.half (qimage_to_numpy (qimage_from_pixmap frameFHD))).channels = 3 ∧
    (convertFrame ScaleSel.half (qimage_to_numpy (qimage_from_pixmap frameFHD))).resampledWith =
      some Interp.area := by
  have h := converter_output ScaleSel.half frameFHD
  refine ⟨?_, ?_, h.2.2.2.2.2.1, h.2.2.2.2.2.2 (by norm_num [scale_factor])⟩
  · rw [h.2.2.2.1]
    decide
  · rw [h.2.2.2.2.1]
    decide

/-- C1: starting a session with no writer, every frame geometry the
writer ever receives equals the first recorded frame's post-conversion
geometry (the session's fixed target size); differing frames are resized
to it before the write. -/
theorem geometry_invariant (env : Env) (f : Frame) (fs : List Frame)
    (s₀ s' : RecState) (hrec : s₀.recording = true) (hscr : s₀.hasScreen = true)
    (hw : s₀.writer = none) (hrun : runFrames env (f :: fs) s₀ = Except.ok s') :
    ∃ w', s'.writer = some w' ∧
      (w'.frameW, w'.frameH) = convGeom s₀.scaleSel f ∧
      s'.targetSize = some (convGeom s₀.scaleSel f) ∧
      ∀ d ∈ w'.frames, d = convGeom s₀.scaleSel f := by
  unfold runFrames at hrun
  cases h1 : on_tick env f s₀ with
  | error e => rw [h1] at hrun; exact absurd hrun (by simp)
  | ok s₁ =>
    rw [h1] at hrun
    obtain ⟨p, hp, hco, hs₁⟩ := on_tick_first_inv env f s₀ s₁ hrec hscr hw h1
    subst hs₁
    obtain ⟨w', hw', hFW, hFH, hfps, hlen, hoc, hts, hmem⟩ :=
      runFrames_open_inv env fs _ s' _ (by simpa using hrec) (by simpa using hscr)
        rfl (by simp) hrun
    refine ⟨w', hw', ?_, ?_, ?_⟩
    · rw [hFW, hFH]
    · rw [hts]
    · intro d hd
      rcases hmem d hd with hm | hm
      · simpa using hm
      · simpa using hm

/-- C3: in a session started with no writer and a zero open counter, the
encoder is opened exactly once, on the first recorded frame, with that
frame's post-scale geometry and the configured fps, and every tick writes
exactly one frame of that geometry. -/
theorem lazy_single_open (env : Env) (f : Frame) (fs : List Frame)
    (s₀ s' : RecState) (hrec : s₀.recording = true) (hscr : s₀.hasScreen = true)
    (hw : s₀.writer = none) (hoc0 : s₀.openCount = 0)
    (hrun : runFrames env (f :: fs) s₀ = Except.ok s') :
    s'.openCount = 1 ∧
    ∃ w', s'.writer = some w' ∧
      w'.fps = s₀.fpsBox ∧
      (w'.frameW, w'.frameH) = convGeom s₀.scaleSel f ∧
      w'.frames.length = fs.length + 1 ∧
      ∀ d ∈ w'.frames, d = convGeom s₀.scaleSel f := by
  unfold runFrames at hrun
  cases h1 : on_tick env f s₀ with
  | error e => rw [h1] at hrun; exact absurd hrun (by simp)
  | ok s₁ =>
    rw [h1] at hrun
    obtain ⟨p, hp, hco, hs₁⟩ := on_tick_first_inv env f s₀ s₁ hrec hscr hw h1
    subst hs₁
    obtain ⟨w', hw', hFW, hFH, hfps, hlen, hoc, hts, hmem⟩ :=
      runFrames_open_inv env fs _ s' _ (by simpa using hrec) (by simpa using hscr)
        rfl (by simp) hrun
    refine ⟨?_, w', hw', ?_, ?_, ?_, ?_⟩
    · rw [hoc]
      simp [hoc0]
    · rw [hfps]
    · rw [hFW, hFH]
    · rw [hlen]
      simp [Nat.add_comm]
    · intro d hd
      rcases hmem d hd with hm | hm
      · simpa using hm
      · simpa using hm

/-- Witness for C1: three frames of three different capture sizes at
scale 1/2 all reach the writer as 960×540, the first frame's
post-conversion geometry. -/
theorem geometry_invariant_witness :
    runFrames envAll (frameFHD :: [⟨800, 600⟩, ⟨1024, 768⟩]) sRec20 = Except.ok sMixFin ∧
    ∃ w', sMixFin.writer = some w' ∧
      (w'.frameW, w'.frameH) = ((960 : Nat), (540 : Nat)) ∧
      sMixFin.targetSize = some ((960 : Nat), (540 : Nat)) ∧
      ∀ d ∈ w'.frames, d = ((960 : Nat), (540 : Nat)) := by
  have hg : convGeom sRec20.scaleSel frameFHD = ((960 : Nat), (540 : Nat)) := by
    unfold convGeom
    rw [convertFrame_eq]
    decide
  have hrun : runFrames envAll (frameFHD :: [⟨800, 600⟩, ⟨1024, 768⟩]) sRec20 =
      Except.ok sMixFin := by
    rw [runFrames_eq]
    decide
  obtain ⟨w', h1, h2, h3, h4⟩ :=
    geometry_invariant envAll frameFHD [⟨800, 600⟩, ⟨1024, 768⟩] sRec20 sMixFin
      rfl rfl rfl hrun
  refine ⟨hrun, w', h1, ?_, ?_, ?_⟩
  · rw [h2, hg]
  · rw [h3, hg]
  · intro d hd
    rw [h4 d hd, hg]

/-- Witness for C3: the end-to-end scenario of the specification — fps
20, scale 1/2, 40 frames of 1920×1080 into `out.mp4`: the encoder opens
exactly once at 960×540 and fps 20, and exactly 40 frames of 960×540 are
written. -/
theorem lazy_single_open_witness :
    runFrames envAll (frameFHD :: List.replicate 39 frameFHD) sRec20 = Except.ok sFin40 ∧
    sFin40.openCount = 1 ∧
    ∃ w', sFin40.writer = some w' ∧ w'.fps = 20 ∧
      (w'.frameW, w'.frameH) = ((960 : Nat), (540 : Nat)) ∧
      w'.frames.length = 40 ∧
      ∀ d ∈ w'.frames, d = ((960 : Nat), (540 : Nat)) := by
  have hg : convGeom sRec20.scaleSel frameFHD = ((960 : Nat), (540 : Nat)) := by
    unfold convGeom
    rw [convertFrame_eq]
    decide
  have hrun : runFrames envAll (frameFHD :: List.replicate 39 frameFHD) sRec20 =
      Except.ok sFin40 := by
    rw [runFrames_eq]
    decide
  obtain ⟨h1, w', h2, h3, h4, h5, h6⟩ :=
    lazy_single_open envAll frameFHD (List.replicate 39 frameFHD) sRec20 sFin40
      rfl rfl rfl rfl hrun
  refine ⟨hrun, h1, w', h2, h3, ?_, ?_, ?_⟩
  · rw [h4, hg]
  · rw [h5]
    simp
  · intro d hd
    rw [h6 d hd, hg]
